import Mathlib

/-!
# OpenMeter ingestion pipeline and meter-table lifecycle

A shallow embedding of

* `internal/streaming/kafka_connector/connector.go` (`KafkaConnector.Init`, `KafkaConnector.MeterAssert`),
* `internal/ingest/kafkaingest/schema.go` (`NewSchema`, `getSerializer`, `toCloudEventsKafkaPayload`,
  `schema.SerializeValue`),
* `internal/ingest/httpingest/httpingest.go` (`Handler.ServeHTTP`).

External collaborators (the ksqlDB client, the schema registry, `encoding/json`, the clock, the
collector) are parameters of the model. Stateful collaborators are functions on an explicit state, and
every call made to them is appended to a trace so that "is never called" and "is called once" are
statements about that trace. Logging is omitted.
-/

namespace OpenMeter

/-! ## Go values shared by the three files -/

/-- Go `error` values. `new` is an error carrying a message, `wrap` is what
`fmt.Errorf("<pfx>: %w", inner)` builds. -/
inductive GoError where
  | new (msg : String)
  | wrap (pfx : String) (inner : GoError)
deriving DecidableEq

/-- The `Error()` method: the message of the error. -/
def GoError.Error : GoError → String
  | .new msg => msg
  | .wrap pfx inner => pfx ++ ": " ++ inner.Error

/-- Go `strings.HasPrefix`. -/
def HasPrefix (s pfx : String) : Bool :=
  pfx.data.isPrefixOf s.data

/-- What a Go function of result type `error` does: returns `nil`, returns an error, or panics. -/
inductive Result where
  | nil
  | err (e : GoError)
  | panic
deriving DecidableEq

/-- Go `[]byte`, and Go strings that hold raw bytes. -/
abbrev Bytes := List UInt8

/-! ## `connector.go`: the meter-table lifecycle -/

/-- One entry of `SourceDescription.WriteQueries` in a ksqlDB describe response. -/
structure Query where
  QueryString : String
deriving DecidableEq

/-- The `SourceDescription` field of a ksqlDB response entry. -/
structure SourceDescription where
  WriteQueries : List Query
deriving DecidableEq

/-- One entry of a `ksqldb.KsqlResponseSlice`. Its `SourceDescription` field is a pointer, which
is nil when the entry carries no source description. -/
structure KsqlResponse where
  SourceDescription : Option SourceDescription
deriving DecidableEq

/-- The slice a `*ksqldb.KsqlResponseSlice` points to. -/
abbrev KsqlResponseSlice := List KsqlResponse

/-- The template data of the meter table queries, as built by `Init`. -/
structure meterTableQueryData (Meter : Type) where
  Meter : Meter
  WindowRetention : String
  Partitions : Int

/-- What `KafkaConnector` depends on: its configured partition count, the query builders and the
query comparison of the package (declared in files other than `connector.go`), and the ksqlDB
client, whose `Execute` acts on the engine state `σ` and returns an error or the response
pointer, which may be nil. -/
structure Connector (Meter σ : Type) where
  Partitions : Int
  GetTableDescribeQuery : Meter → Except GoError String
  GetTableQuery : meterTableQueryData Meter → Except GoError String
  MeterQueryAssert : String → meterTableQueryData Meter → Option GoError
  Execute : σ → String → Except GoError (Option KsqlResponseSlice) × σ

/-- The engine state together with the trace of a run: the statements handed to
`KsqlDBClient.Execute` and the arguments of the calls of `MeterQueryAssert`, oldest first. -/
structure Run (Meter σ : Type) where
  engine : σ
  executed : List String
  asserted : List (String × meterTableQueryData Meter)

/-- Submit one statement to the engine and record it. -/
def Run.exec {Meter σ : Type} (c : Connector Meter σ) (r : Run Meter σ) (q : String) :
    Except GoError (Option KsqlResponseSlice) × Run Meter σ :=
  ((c.Execute r.engine q).1,
    { r with engine := (c.Execute r.engine q).2, executed := r.executed ++ [q] })

/-- The method `KafkaConnector.MeterAssert`: describe the meter table and, when it exists with a
write query, compare that query with the current definition. After a describe that succeeds, the
expression `(*resp)[0]` panics on a nil or an empty response, and
`sourceDescription.SourceDescription.WriteQueries` panics on a nil source description. -/
def MeterAssert {Meter σ : Type} (c : Connector Meter σ) (data : meterTableQueryData Meter)
    (r : Run Meter σ) : Result × Run Meter σ :=
  match c.GetTableDescribeQuery data.Meter with
  | .error err => (.err err, r)
  | .ok q =>
    match r.exec c q with
    | (.error err, r1) =>
      if HasPrefix err.Error "Could not find" then (.nil, r1) else (.err err, r1)
    | (.ok resp, r1) =>
      match resp with
      | none => (.panic, r1)
      | some [] => (.panic, r1)
      | some (sourceDescription :: _) =>
        match sourceDescription.SourceDescription with
        | none => (.panic, r1)
        | some description =>
          match description.WriteQueries with
          | w :: _ =>
            let query := w.QueryString
            let r2 := { r1 with asserted := r1.asserted ++ [(query, data)] }
            match c.MeterQueryAssert query data with
            | some err => (.err err, r2)
            | none => (.nil, r2)
          | [] => (.nil, r1)

/-- The method `KafkaConnector.Init`. -/
def Init {Meter σ : Type} (c : Connector Meter σ) (meter : Meter) (r : Run Meter σ) :
    Result × Run Meter σ :=
  let queryData : meterTableQueryData Meter :=
    { Meter := meter, WindowRetention := "36500 DAYS", Partitions := c.Partitions }
  match MeterAssert c queryData r with
  | (.nil, r1) =>
    match c.GetTableQuery queryData with
    | .error err => (.err err, r1)
    | .ok q =>
      match r1.exec c q with
      | (.error err, r2) => (.err err, r2)
      | (.ok _, r2) => (.nil, r2)
  | (res, r1) => (res, r1)

/-- The template data `Init` builds for a meter. -/
def initData {Meter σ : Type} (c : Connector Meter σ) (meter : Meter) : meterTableQueryData Meter :=
  { Meter := meter, WindowRetention := "36500 DAYS", Partitions := c.Partitions }

/-- A fresh run on a given engine state. -/
def Run.start {Meter : Type} {σ : Type} (s : σ) : Run Meter σ :=
  { engine := s, executed := [], asserted := [] }

/-! ## `schema.go`: schema binding and value serialization -/

/-- Go `serde.Type`: which half of a record a serializer encodes. -/
inductive SerdeType where
  | KeySerde
  | ValueSerde
deriving DecidableEq

/-- Go `schemaregistry.SchemaInfo`, with the two fields `getSerializer` sets. -/
structure SchemaInfo where
  Schema : String
  SchemaType : String
deriving DecidableEq

/-- Go `jsonschema.SerializerConfig`, with the two fields `getSerializer` sets. -/
structure SerializerConfig where
  AutoRegisterSchemas : Bool
  UseSchemaID : Int
deriving DecidableEq

/-- Go `jsonschema.Serializer`: the serde type it was built for and the configuration it holds. -/
structure Serializer where
  SerdeType : SerdeType
  Conf : SerializerConfig
deriving DecidableEq

/-- The schema registry client and the serializer library, as `schema.go` uses them. `Register`
acts on the registry state `ρ`; its last argument is the `normalize` flag. `NewSerializerConfig` is
the library's default configuration and `NewSerializerErr` says when the library's
`NewSerializer` fails. The two embedded schema documents are `eventKeySchema` and
`eventValueSchema`. -/
structure Registry (ρ : Type) where
  Register : ρ → String → SchemaInfo → Bool → Except GoError Int × ρ
  NewSerializerConfig : SerializerConfig
  NewSerializerErr : SerdeType → SerializerConfig → Option GoError
  eventKeySchema : String
  eventValueSchema : String

/-- Go `jsonschema.NewSerializer`: the serializer holds the configuration it is given, unless the
library reports an error. -/
def NewSerializer {ρ : Type} (registry : Registry ρ) (serdeType : SerdeType)
    (conf : SerializerConfig) : Except GoError Serializer :=
  match registry.NewSerializerErr serdeType conf with
  | some err => .error err
  | none => .ok { SerdeType := serdeType, Conf := conf }

/-- The subject `getSerializer` registers a schema under. -/
def schemaSubject (serdeType : SerdeType) : String :=
  let suffix := if serdeType = SerdeType.ValueSerde then "value" else "key"
  "om-cloudevents-" ++ suffix

/-- The function `getSerializer`: registers the schema with the registry and returns a serializer configured
with the registered ID. -/
def getSerializer {ρ : Type} (registry : Registry ρ) (serdeType : SerdeType) (schema : String)
    (st : ρ) : Except GoError Serializer × ρ :=
  match registry.Register st (schemaSubject serdeType)
      { Schema := schema, SchemaType := "JSON" } true with
  | (.error err, st1) => (.error (.wrap "register schema" err), st1)
  | (.ok schemaID, st1) =>
    let serializerConfig : SerializerConfig :=
      { registry.NewSerializerConfig with AutoRegisterSchemas := false, UseSchemaID := schemaID }
    match NewSerializer registry serdeType serializerConfig with
    | .error err => (.error (.wrap "init serializer" err), st1)
    | .ok serializer => (.ok serializer, st1)

/-- The `schema` struct. -/
structure schema where
  keySerializer : Serializer
  valueSerializer : Serializer
deriving DecidableEq

/-- The function `NewSchema`: on success the schema with the key and the value schema ID. -/
def NewSchema {ρ : Type} (registry : Registry ρ) (st : ρ) :
    Except GoError (schema × Int × Int) × ρ :=
  match getSerializer registry SerdeType.KeySerde registry.eventKeySchema st with
  | (.error err, st1) => (.error (.wrap "init event key serializer" err), st1)
  | (.ok keySerializer, st1) =>
    match getSerializer registry SerdeType.ValueSerde registry.eventValueSchema st1 with
    | (.error err, st2) => (.error (.wrap "init event value serializer" err), st2)
    | (.ok valueSerializer, st2) =>
      (.ok ({ keySerializer := keySerializer, valueSerializer := valueSerializer },
        keySerializer.Conf.UseSchemaID, valueSerializer.Conf.UseSchemaID), st2)

/-! ## Events and times, as `schema.go` and `httpingest.go` read them -/

/-- Go `time.Location`, as far as the code tells locations apart. -/
inductive Location where
  | UTC
  | Local
  | Fixed (name : String) (offset : Int)
deriving DecidableEq

/-- Go `time.Time`: an instant, counted from January 1 of year 1, 00:00:00 UTC, and the location
it is presented in. -/
structure Time where
  sec : Int
  nsec : Nat
  loc : Location
deriving DecidableEq

/-- Go `Time.IsZero`: the instant is the zero instant, whatever the location. -/
def Time.IsZero (t : Time) : Bool :=
  t.sec == 0 && t.nsec == 0

/-- Go `Time.UTC`: the same instant, presented in UTC. -/
def Time.UTC (t : Time) : Time :=
  { t with loc := Location.UTC }

/-- A CloudEvents `event.Event`, with the attributes the code reads. -/
structure Event where
  ID : String
  Type_ : String
  Source : String
  Subject : String
  Time : OpenMeter.Time
  Data : Bytes
deriving DecidableEq

/-- Go `Event.SetTime`: the event with its time attribute set; `Event.Time()` reads the
attribute back. -/
def Event.SetTime (ev : Event) (t : OpenMeter.Time) : Event :=
  { ev with Time := t }

/-- The `cloudEventsKafkaPayload` struct. `Data` holds the bytes of the Go string. -/
structure cloudEventsKafkaPayload where
  Id : String
  Type_ : String
  Source : String
  Subject : String
  Time : String
  Data : Bytes
deriving DecidableEq

/-- The library functions `toCloudEventsKafkaPayload` calls: `json.Unmarshal` into an
`interface{}` (a value of type `V`), `json.Marshal` of such a value, and `Time.String`. -/
structure Json (V : Type) where
  Unmarshal : Bytes → Except GoError V
  Marshal : V → Except GoError Bytes
  TimeString : Time → String

/-- The function `toCloudEventsKafkaPayload`: the payload and the error, as the Go function returns both. -/
def toCloudEventsKafkaPayload {V : Type} (json : Json V) (ev : Event) :
    cloudEventsKafkaPayload × Option GoError :=
  let payload : cloudEventsKafkaPayload :=
    { Id := ev.ID, Type_ := ev.Type_, Source := ev.Source, Subject := ev.Subject,
      Time := json.TimeString ev.Time, Data := [] }
  match json.Unmarshal ev.Data with
  | .error err => (payload, some err)
  | .ok data =>
    match json.Marshal data with
    | .error err => (payload, some err)
    | .ok dataBytes => ({ payload with Data := dataBytes }, none)

/-- One call of the library's `Serializer.Serialize`. -/
structure SerializeCall where
  serializer : Serializer
  topic : String
  msg : cloudEventsKafkaPayload
deriving DecidableEq

/-- The method `schema.SerializeValue`: the bytes and the error the Go method returns, and the trace of the
calls of the value serializer's `Serialize`, extended by the call this invocation makes, if any.
`Serialize` is the library's method. -/
def SerializeValue {V : Type} (json : Json V)
    (Serialize : Serializer → String → cloudEventsKafkaPayload → Option Bytes × Option GoError)
    (s : schema) (topic : String) (ev : Event) (calls : List SerializeCall) :
    (Option Bytes × Option GoError) × List SerializeCall :=
  match toCloudEventsKafkaPayload json ev with
  | (_, some err) => ((none, some err), calls)
  | (value, none) =>
    (Serialize s.valueSerializer topic value,
      calls ++ [{ serializer := s.valueSerializer, topic := topic, msg := value }])

/-! ## `httpingest.go`: the HTTP ingestion handler -/

/-- Go `api.IngestEventsParams`: the optional namespace parameter of the request. -/
structure IngestEventsParams where
  NamespaceInput : Option String
deriving DecidableEq

/-- The problem body of an error response. -/
structure StatusProblem where
  Type_ : String
  Title : String
  Status : Nat
  Detail : String
deriving DecidableEq

/-- What the handler wrote to the `http.ResponseWriter`: the status code and, for an error
response, the problem body. -/
structure Response where
  Status : Nat
  Problem : Option StatusProblem
deriving DecidableEq

/-- Go `http.StatusOK`. -/
def StatusOK : Nat := 200

/-- Go `http.StatusInternalServerError`. -/
def StatusInternalServerError : Nat := 500

/-- What `Handler.ServeHTTP` depends on: the decoder of the request body
(`json.NewDecoder(r.Body).Decode`), the reading of `time.Now()`, the constant
`namespace.DefaultNamespace`, the `Receive` method of the collector, acting on the collector
state `κ`, and the type and title texts of a problem body. -/
structure Handler (κ : Type) where
  Decode : Bytes → Except GoError Event
  Now : Time
  DefaultNamespace : String
  Receive : κ → Event → String → Option GoError × κ
  ProblemType : String
  StatusText : Nat → String

/-- Modelled from the spec: `models.NewStatusProblem`, of package `pkg/models`, which is not among
the source files. The spec describes an error response as the status with a structured problem
body `{type, title, status, detail}`; the detail is the message of the error. -/
def NewStatusProblem {κ : Type} (h : Handler κ) (err : GoError) (status : Nat) : StatusProblem :=
  { Type_ := h.ProblemType, Title := h.StatusText status, Status := status, Detail := err.Error }

/-- Modelled from the spec: `StatusProblem.Respond`, of package `pkg/models`, which is not among
the source files: the response carries the status of the problem and the problem as its body. -/
def StatusProblem.Respond (p : StatusProblem) : Response :=
  { Status := p.Status, Problem := some p }

/-- The collector state together with the trace of the calls of `Collector.Receive`: the event
and the namespace of each call, oldest first. -/
structure Served (κ : Type) where
  collector : κ
  received : List (Event × String)

/-- The method `Handler.ServeHTTP` on a request with the given body and parameters. -/
def ServeHTTP {κ : Type} (h : Handler κ) (body : Bytes) (params : IngestEventsParams)
    (sv : Served κ) : Response × Served κ :=
  match h.Decode body with
  | .error err => ((NewStatusProblem h err StatusInternalServerError).Respond, sv)
  | .ok event =>
    let event := if event.Time.IsZero then event.SetTime h.Now.UTC else event
    let namespace_ :=
      match params.NamespaceInput with
      | some input => input
      | none => h.DefaultNamespace
    let sv1 : Served κ :=
      { collector := (h.Receive sv.collector event namespace_).2,
        received := sv.received ++ [(event, namespace_)] }
    match (h.Receive sv.collector event namespace_).1 with
    | some err => ((NewStatusProblem h err StatusInternalServerError).Respond, sv1)
    | none => ({ Status := StatusOK, Problem := none }, sv1)

/-! ## Fixtures for the concrete runs -/

/-- A ksqlDB engine holding at most one meter table: no table, a table with its defining query,
a table without write queries, or an engine that cannot be reached. -/
inductive DemoEngine where
  | absent
  | present (definingQuery : String)
  | bare
  | down
deriving DecidableEq

/-- The entry of a describe response for a table with the given write queries. -/
def demoEntry (queries : List String) : KsqlResponse :=
  { SourceDescription := some { WriteQueries := queries.map fun dq => { QueryString := dq } } }

/-- The statements of the example engine: `DESCRIBE` of the meter table, or anything else, which
it takes for the create statement. -/
def DemoEngine.Execute (s : DemoEngine) (q : String) :
    Except GoError (Option KsqlResponseSlice) × DemoEngine :=
  if q = "DESCRIBE OM_METER_M1;" then
    match s with
    | .absent => (.error (.new "Could not find STREAM/TABLE OM_METER_M1 in the Metastore"), s)
    | .present dq => (.ok (some [demoEntry [dq]]), s)
    | .bare => (.ok (some [demoEntry []]), s)
    | .down => (.error (.new "connection refused"), s)
  else
    match s with
    | .absent => (.ok (some [{ SourceDescription := none }]), .present q)
    | .down => (.error (.new "connection refused"), s)
    | _ => (.ok (some [{ SourceDescription := none }]), s)

/-- An example connector over the example engine, for meters named by a string: the expected
defining query of a meter is its create statement. -/
def demoConnector : Connector String DemoEngine where
  Partitions := 1
  GetTableDescribeQuery := fun meter => .ok ("DESCRIBE OM_METER_" ++ meter ++ ";")
  GetTableQuery := fun data => .ok ("CREATE TABLE IF NOT EXISTS OM_METER_" ++ data.Meter ++ ";")
  MeterQueryAssert := fun query data =>
    if query = "CREATE TABLE IF NOT EXISTS OM_METER_" ++ data.Meter ++ ";" then none
    else some (.new "meter query mismatch")
  Execute := DemoEngine.Execute

/-- JSON values of the example decoder: the three literals. -/
inductive DemoValue where
  | null
  | true_
  | false_
deriving DecidableEq

/-- JSON whitespace: space, line feed, carriage return, tab. -/
def isJsonSpace (b : UInt8) : Bool :=
  b == 32 || b == 10 || b == 13 || b == 9

/-- Drop the JSON whitespace at both ends. -/
def trimJsonSpace (d : Bytes) : Bytes :=
  ((d.dropWhile isJsonSpace).reverse.dropWhile isJsonSpace).reverse

/-- An example JSON library for the literals `null`, `true` and `false`, surrounded by any
whitespace; it writes them without whitespace. -/
def demoJson : Json DemoValue where
  Unmarshal := fun d =>
    if trimJsonSpace d = [110, 117, 108, 108] then .ok .null
    else if trimJsonSpace d = [116, 114, 117, 101] then .ok .true_
    else if trimJsonSpace d = [102, 97, 108, 115, 101] then .ok .false_
    else .error (.new "invalid character looking for beginning of value")
  Marshal := fun v =>
    match v with
    | .null => .ok [110, 117, 108, 108]
    | .true_ => .ok [116, 114, 117, 101]
    | .false_ => .ok [102, 97, 108, 115, 101]
  TimeString := fun _ => "0001-01-01 00:00:00 +0000 UTC"

/-- An example event with the given data. -/
def demoEvent (data : Bytes) : Event where
  ID := "e1"
  Type_ := "usage"
  Source := "svc"
  Subject := "cust-1"
  Time := { sec := 0, nsec := 0, loc := .UTC }
  Data := data

/-- An example schema, bound to the schema IDs 1 and 2. -/
def demoSchema : schema where
  keySerializer :=
    { SerdeType := .KeySerde, Conf := { AutoRegisterSchemas := false, UseSchemaID := 1 } }
  valueSerializer :=
    { SerdeType := .ValueSerde, Conf := { AutoRegisterSchemas := false, UseSchemaID := 2 } }

/-- An example `Serialize`: the bytes of the data field. -/
def demoSerialize (_ : Serializer) (_ : String) (msg : cloudEventsKafkaPayload) :
    Option Bytes × Option GoError :=
  (some msg.Data, none)

/-- An example handler. Its decoder reads the body `{}` as the example event without a time,
the body `{1}` as the example event with a time, and rejects every other body; its collector
counts the events it has received and refuses the namespace `broken`. -/
def demoHandler : Handler Nat where
  Decode := fun body =>
    if body = [123, 125] then .ok (demoEvent [110, 117, 108, 108])
    else if body = [123, 49, 125] then
      .ok ((demoEvent [110, 117, 108, 108]).SetTime
        { sec := 63800000000, nsec := 0, loc := .Local })
    else .error (.new "unexpected EOF")
  Now := { sec := 63900000000, nsec := 5, loc := .Local }
  DefaultNamespace := "default"
  Receive := fun n _ ns =>
    (if ns = "broken" then some (.new "collector unavailable") else none, n + 1)
  ProblemType := "about:blank"
  StatusText := fun status => if status = 500 then "Internal Server Error" else "OK"

/-- An example registry: its state counts the registrations, and it answers the key subject
with the ID 1 and every other subject with the ID 2. -/
def demoRegistry : Registry Nat where
  Register := fun n subject _ _ =>
    (if subject = "om-cloudevents-key" then .ok 1 else .ok 2, n + 1)
  NewSerializerConfig := { AutoRegisterSchemas := true, UseSchemaID := -1 }
  NewSerializerErr := fun _ _ => none
  eventKeySchema := "\x7b\"type\": \"string\"\x7d"
  eventValueSchema := "\x7b\"type\": \"object\"\x7d"

/-- The answers of the example registry, as a function of the subject and the schema. -/
def demoRegistryAnswer (subject : String) (_ : SchemaInfo) : Except GoError Int :=
  if subject = "om-cloudevents-key" then .ok 1 else .ok 2

/-! ## The meter-table lifecycle (`connector.go`) -/

/-- The method `Init` in terms of `initData`. -/
theorem Init_eq {Meter σ : Type} (c : Connector Meter σ) (meter : Meter) (r : Run Meter σ) :
    Init c meter r =
      (match MeterAssert c (initData c meter) r with
        | (.nil, r1) =>
          match c.GetTableQuery (initData c meter) with
          | .error err => (.err err, r1)
          | .ok q =>
            match r1.exec c q with
            | (.error err, r2) => (.err err, r2)
            | (.ok _, r2) => (.nil, r2)
        | (res, r1) => (res, r1)) :=
  rfl

/-- After any outcome of `MeterAssert` without an error, `Init` goes on to Create: it renders
the create statement and submits it. -/
theorem Init_of_assert_nil {Meter σ : Type} (c : Connector Meter σ) (meter : Meter)
    (r0 r1 : Run Meter σ) (h : MeterAssert c (initData c meter) r0 = (.nil, r1)) :
    Init c meter r0 =
      (match c.GetTableQuery (initData c meter) with
        | .error err => (Result.err err, r1)
        | .ok qc =>
          ((match (c.Execute r1.engine qc).1 with
              | .error err => Result.err err
              | .ok _ => Result.nil),
            { r1 with engine := (c.Execute r1.engine qc).2,
                      executed := r1.executed ++ [qc] })) := by
  rw [Init_eq, h]
  simp only
  cases c.GetTableQuery (initData c meter) with
  | error err => rfl
  | ok qc =>
    simp only [Run.exec]
    cases (c.Execute r1.engine qc).1 <;> rfl

/-- C1, as stated, fails: on an engine whose table `OM_METER_M1` exists with the defining query
the current definition produces, the describe succeeds and `MeterQueryAssert` returns no error,
yet `Init` submits two statements, the describe and then the create-table statement. -/
theorem C1_counterexample_create_submitted_on_match :
    (demoConnector.Execute (.present "CREATE TABLE IF NOT EXISTS OM_METER_M1;")
        "DESCRIBE OM_METER_M1;").1
      = .ok (some [(demoEntry ["CREATE TABLE IF NOT EXISTS OM_METER_M1;"])])
    ∧ demoConnector.MeterQueryAssert "CREATE TABLE IF NOT EXISTS OM_METER_M1;"
        (initData demoConnector "M1") = none
    ∧ (Init demoConnector "M1"
        (Run.start (.present "CREATE TABLE IF NOT EXISTS OM_METER_M1;"))).1 = .nil
    ∧ (Init demoConnector "M1"
        (Run.start (.present "CREATE TABLE IF NOT EXISTS OM_METER_M1;"))).2.executed
      = ["DESCRIBE OM_METER_M1;", "CREATE TABLE IF NOT EXISTS OM_METER_M1;"] := by
  refine ⟨?_, ?_, ?_, ?_⟩
  · rfl
  · decide
  · decide
  · decide

/-- C1, amended: when the describe succeeds, the first entry of the response carries a source
description that lists a write query, and `MeterQueryAssert` accepts it, `MeterAssert` returns
no error after executing the describe alone, and `Init` then goes on to Create, as it does
after every outcome of `MeterAssert` without an error, from whatever run, Absent included: if
`GetTableQuery` fails, `Init` returns its error and executes nothing more; otherwise `Init`
submits the create statement as the next and last statement and returns the error of that
execution, if any. -/
theorem C1_init_on_match_describes_then_creates {Meter σ : Type} (c : Connector Meter σ)
    (meter : Meter) (r : Run Meter σ) (q : String) (d : KsqlResponse)
    (rest : KsqlResponseSlice) (description : SourceDescription) (w : Query) (ws : List Query)
    (hq : c.GetTableDescribeQuery meter = .ok q)
    (hex : (c.Execute r.engine q).1 = .ok (some (d :: rest)))
    (hsd : d.SourceDescription = some description)
    (hw : description.WriteQueries = w :: ws)
    (hassert : c.MeterQueryAssert w.QueryString (initData c meter) = none) :
    MeterAssert c (initData c meter) r
      = (.nil, { engine := (c.Execute r.engine q).2, executed := r.executed ++ [q],
                 asserted := r.asserted ++ [(w.QueryString, initData c meter)] })
    ∧ Init c meter r =
        (match c.GetTableQuery (initData c meter) with
          | .error err =>
            (Result.err err,
              { engine := (c.Execute r.engine q).2, executed := r.executed ++ [q],
                asserted := r.asserted ++ [(w.QueryString, initData c meter)] })
          | .ok qc =>
            ((match (c.Execute (c.Execute r.engine q).2 qc).1 with
                | .error err => Result.err err
                | .ok _ => Result.nil),
              { engine := (c.Execute (c.Execute r.engine q).2 qc).2,
                executed := r.executed ++ [q] ++ [qc],
                asserted := r.asserted ++ [(w.QueryString, initData c meter)] }))
    ∧ ∀ r0 r1 : Run Meter σ, MeterAssert c (initData c meter) r0 = (.nil, r1) →
        Init c meter r0 =
          (match c.GetTableQuery (initData c meter) with
            | .error err => (Result.err err, r1)
            | .ok qc =>
              ((match (c.Execute r1.engine qc).1 with
                  | .error err => Result.err err
                  | .ok _ => Result.nil),
                { r1 with engine := (c.Execute r1.engine qc).2,
                          executed := r1.executed ++ [qc] })) := by
  have hdata : (initData c meter).Meter = meter := rfl
  have hasrt : MeterAssert c (initData c meter) r
      = (.nil, { engine := (c.Execute r.engine q).2, executed := r.executed ++ [q],
                 asserted := r.asserted ++ [(w.QueryString, initData c meter)] }) := by
    simp [MeterAssert, Run.exec, hdata, hq, hex, hsd, hw, hassert]
  refine ⟨hasrt, ?_, fun r0 r1 h => Init_of_assert_nil c meter r0 r1 h⟩
  rw [Init_of_assert_nil c meter r _ hasrt]

/-- The runs on the example engine with a matching table and without a table satisfy the
hypotheses of `C1_init_on_match_describes_then_creates`: in both, the create statement follows
the describe. -/
theorem C1_init_on_match_describes_then_creates_witness :
    Init demoConnector "M1" (Run.start (.present "CREATE TABLE IF NOT EXISTS OM_METER_M1;"))
      = (.nil, { engine := .present "CREATE TABLE IF NOT EXISTS OM_METER_M1;",
                 executed := ["DESCRIBE OM_METER_M1;", "CREATE TABLE IF NOT EXISTS OM_METER_M1;"],
                 asserted := [("CREATE TABLE IF NOT EXISTS OM_METER_M1;",
                   initData demoConnector "M1")] })
    ∧ Init demoConnector "M1" (Run.start .absent)
      = (.nil, { engine := .present "CREATE TABLE IF NOT EXISTS OM_METER_M1;",
                 executed := ["DESCRIBE OM_METER_M1;", "CREATE TABLE IF NOT EXISTS OM_METER_M1;"],
                 asserted := [] }) :=
  have h := C1_init_on_match_describes_then_creates demoConnector "M1"
    (Run.start (.present "CREATE TABLE IF NOT EXISTS OM_METER_M1;")) "DESCRIBE OM_METER_M1;"
    (demoEntry ["CREATE TABLE IF NOT EXISTS OM_METER_M1;"])
    [] { WriteQueries := [{ QueryString := "CREATE TABLE IF NOT EXISTS OM_METER_M1;" }] }
    { QueryString := "CREATE TABLE IF NOT EXISTS OM_METER_M1;" } []
    rfl rfl rfl rfl (by decide)
  ⟨h.2.1, h.2.2 (Run.start .absent)
    { engine := .absent, executed := ["DESCRIBE OM_METER_M1;"], asserted := [] } rfl⟩

/-- C2: when the describe succeeds, the first entry of the response carries a source
description that lists a write query, and `MeterQueryAssert` rejects it with an error, `Init`
returns that error, and the describe is the only statement it has executed: the engine is left
in the state the describe left it in. -/
theorem C2_init_aborts_on_mismatch {Meter σ : Type} (c : Connector Meter σ)
    (meter : Meter) (r : Run Meter σ) (q : String) (d : KsqlResponse)
    (rest : KsqlResponseSlice) (description : SourceDescription) (w : Query) (ws : List Query)
    (e : GoError)
    (hq : c.GetTableDescribeQuery meter = .ok q)
    (hex : (c.Execute r.engine q).1 = .ok (some (d :: rest)))
    (hsd : d.SourceDescription = some description)
    (hw : description.WriteQueries = w :: ws)
    (hassert : c.MeterQueryAssert w.QueryString (initData c meter) = some e) :
    Init c meter r =
      (.err e, { engine := (c.Execute r.engine q).2, executed := r.executed ++ [q],
                 asserted := r.asserted ++ [(w.QueryString, initData c meter)] }) := by
  have hdata : (initData c meter).Meter = meter := rfl
  have hasrt : MeterAssert c (initData c meter) r
      = (.err e, { engine := (c.Execute r.engine q).2, executed := r.executed ++ [q],
                   asserted := r.asserted ++ [(w.QueryString, initData c meter)] }) := by
    simp [MeterAssert, Run.exec, hdata, hq, hex, hsd, hw, hassert]
  rw [Init_eq, hasrt]

/-- The run on the example engine whose table has another defining query satisfies the
hypotheses of `C2_init_aborts_on_mismatch`. -/
theorem C2_init_aborts_on_mismatch_witness :
    Init demoConnector "M1" (Run.start (.present "CREATE TABLE OM_METER_M1 AS SELECT 1;")) =
      (.err (.new "meter query mismatch"),
        { engine := (demoConnector.Execute (.present "CREATE TABLE OM_METER_M1 AS SELECT 1;")
            "DESCRIBE OM_METER_M1;").2,
          executed := [] ++ ["DESCRIBE OM_METER_M1;"],
          asserted := [] ++ [("CREATE TABLE OM_METER_M1 AS SELECT 1;",
            initData demoConnector "M1")] }) :=
  C2_init_aborts_on_mismatch demoConnector "M1"
    (Run.start (.present "CREATE TABLE OM_METER_M1 AS SELECT 1;")) "DESCRIBE OM_METER_M1;"
    (demoEntry ["CREATE TABLE OM_METER_M1 AS SELECT 1;"])
    [] { WriteQueries := [{ QueryString := "CREATE TABLE OM_METER_M1 AS SELECT 1;" }] }
    { QueryString := "CREATE TABLE OM_METER_M1 AS SELECT 1;" } []
    (.new "meter query mismatch") rfl rfl rfl rfl (by decide)

/-- C3: when executing the describe statement fails with an error, `MeterAssert` returns nil
exactly when the message of the error begins with "Could not find"; for every other failure
`MeterAssert` returns that same error, and so does `Init`, having executed the describe alone. -/
theorem C3_describe_failure {Meter σ : Type} (c : Connector Meter σ)
    (data : meterTableQueryData Meter) (r : Run Meter σ) (q : String) (e : GoError)
    (hq : c.GetTableDescribeQuery data.Meter = .ok q)
    (hex : (c.Execute r.engine q).1 = .error e) :
    ((MeterAssert c data r).1 = .nil ↔ HasPrefix e.Error "Could not find" = true)
    ∧ (HasPrefix e.Error "Could not find" = false →
        (MeterAssert c data r).1 = .err e
        ∧ Init c data.Meter r =
            (.err e, { r with engine := (c.Execute r.engine q).2,
                              executed := r.executed ++ [q] })) := by
  have hdata : (initData c data.Meter).Meter = data.Meter := rfl
  refine ⟨?_, ?_⟩
  · by_cases hp : HasPrefix e.Error "Could not find" = true
    · simp [MeterAssert, Run.exec, hq, hex, hp]
    · simp [MeterAssert, Run.exec, hq, hex, hp]
  · intro hp
    refine ⟨by simp [MeterAssert, Run.exec, hq, hex, hp], ?_⟩
    have hasrt : MeterAssert c (initData c data.Meter) r
        = (.err e, { r with engine := (c.Execute r.engine q).2,
                            executed := r.executed ++ [q] }) := by
      simp [MeterAssert, Run.exec, hdata, hq, hex, hp]
    rw [Init_eq, hasrt]

/-- The run on the example engine that cannot be reached satisfies the hypotheses of
`C3_describe_failure`, with a failure other than not-found. -/
theorem C3_describe_failure_witness :
    HasPrefix (GoError.new "connection refused").Error "Could not find" = false
    ∧ (MeterAssert demoConnector (initData demoConnector "M1") (Run.start .down)).1
        = .err (.new "connection refused")
    ∧ Init demoConnector (initData demoConnector "M1").Meter (Run.start .down) =
        (.err (.new "connection refused"),
          { (Run.start .down : Run String DemoEngine) with
            engine := (demoConnector.Execute
              (Run.start .down : Run String DemoEngine).engine "DESCRIBE OM_METER_M1;").2,
            executed := (Run.start .down : Run String DemoEngine).executed
              ++ ["DESCRIBE OM_METER_M1;"] }) :=
  ⟨by decide,
    (C3_describe_failure demoConnector (initData demoConnector "M1") (Run.start .down)
      "DESCRIBE OM_METER_M1;" (.new "connection refused") rfl rfl).2 (by decide)⟩

/-- C4, as stated, fails: on an engine whose table exists without write queries the describe
succeeds, and `MeterAssert` returns success although `MeterQueryAssert` has not been called. -/
theorem C4_counterexample_success_without_assert :
    (demoConnector.Execute .bare "DESCRIBE OM_METER_M1;").1
      = .ok (some [(demoEntry [])])
    ∧ MeterAssert demoConnector (initData demoConnector "M1") (Run.start .bare)
      = (.nil, { engine := .bare, executed := ["DESCRIBE OM_METER_M1;"], asserted := [] }) := by
  refine ⟨rfl, rfl⟩

/-- C4, amended: when the describe succeeds with a response whose first entry carries a source
description, then, if the description lists a write query, `MeterAssert` calls
`MeterQueryAssert` once, on the query string of the first write query and the current
definition, and returns what it returns, success only if it returned no error; if the
description lists no write query, `MeterAssert` returns success without calling
`MeterQueryAssert`. In both cases the describe is the only statement executed. -/
theorem C4_assert_on_found_table {Meter σ : Type} (c : Connector Meter σ)
    (data : meterTableQueryData Meter) (r : Run Meter σ) (q : String) (d : KsqlResponse)
    (rest : KsqlResponseSlice) (description : SourceDescription)
    (hq : c.GetTableDescribeQuery data.Meter = .ok q)
    (hex : (c.Execute r.engine q).1 = .ok (some (d :: rest)))
    (hsd : d.SourceDescription = some description) :
    (∀ w ws, description.WriteQueries = w :: ws →
        MeterAssert c data r =
          ((match c.MeterQueryAssert w.QueryString data with
              | some err => Result.err err
              | none => Result.nil),
            { engine := (c.Execute r.engine q).2, executed := r.executed ++ [q],
              asserted := r.asserted ++ [(w.QueryString, data)] }))
    ∧ (description.WriteQueries = [] →
        MeterAssert c data r =
          (.nil, { engine := (c.Execute r.engine q).2, executed := r.executed ++ [q],
                   asserted := r.asserted })) := by
  refine ⟨?_, ?_⟩
  · intro w ws hw
    cases ha : c.MeterQueryAssert w.QueryString data <;>
      simp [MeterAssert, Run.exec, hq, hex, hsd, hw, ha]
  · intro hw
    simp [MeterAssert, Run.exec, hq, hex, hsd, hw]

/-- The runs on the example engine with a mismatching table and with a table without write
queries satisfy the hypotheses of `C4_assert_on_found_table`. -/
theorem C4_assert_on_found_table_witness :
    MeterAssert demoConnector (initData demoConnector "M1")
        (Run.start (.present "CREATE TABLE OM_METER_M1 AS SELECT 1;"))
      = ((match demoConnector.MeterQueryAssert "CREATE TABLE OM_METER_M1 AS SELECT 1;"
              (initData demoConnector "M1") with
            | some err => Result.err err
            | none => Result.nil),
          { engine := (demoConnector.Execute (.present "CREATE TABLE OM_METER_M1 AS SELECT 1;")
              "DESCRIBE OM_METER_M1;").2,
            executed := [] ++ ["DESCRIBE OM_METER_M1;"],
            asserted := [] ++ [("CREATE TABLE OM_METER_M1 AS SELECT 1;",
              initData demoConnector "M1")] })
    ∧ MeterAssert demoConnector (initData demoConnector "M1") (Run.start .bare)
      = (.nil, { engine := (demoConnector.Execute .bare "DESCRIBE OM_METER_M1;").2,
                 executed := [] ++ ["DESCRIBE OM_METER_M1;"], asserted := [] }) :=
  ⟨(C4_assert_on_found_table demoConnector (initData demoConnector "M1")
      (Run.start (.present "CREATE TABLE OM_METER_M1 AS SELECT 1;")) "DESCRIBE OM_METER_M1;"
      (demoEntry ["CREATE TABLE OM_METER_M1 AS SELECT 1;"])
      [] { WriteQueries := [{ QueryString := "CREATE TABLE OM_METER_M1 AS SELECT 1;" }] }
      rfl rfl rfl).1 { QueryString := "CREATE TABLE OM_METER_M1 AS SELECT 1;" } [] rfl,
    (C4_assert_on_found_table demoConnector (initData demoConnector "M1")
      (Run.start .bare) "DESCRIBE OM_METER_M1;"
      (demoEntry []) [] { WriteQueries := [] }
      rfl rfl rfl).2 rfl⟩

/-- A describe that succeeds with a nil or an empty response, or with a first entry without a
source description, makes `MeterAssert` panic, the describe being the only statement executed. -/
theorem MeterAssert_panics {Meter σ : Type} (c : Connector Meter σ)
    (data : meterTableQueryData Meter) (r : Run Meter σ) (q : String)
    (hq : c.GetTableDescribeQuery data.Meter = .ok q) :
    ((c.Execute r.engine q).1 = .ok none → (MeterAssert c data r).1 = .panic)
    ∧ ((c.Execute r.engine q).1 = .ok (some []) → (MeterAssert c data r).1 = .panic)
    ∧ (∀ d rest, (c.Execute r.engine q).1 = .ok (some (d :: rest)) →
        d.SourceDescription = none → (MeterAssert c data r).1 = .panic) := by
  refine ⟨?_, ?_, ?_⟩
  · intro hex
    simp [MeterAssert, Run.exec, hq, hex]
  · intro hex
    simp [MeterAssert, Run.exec, hq, hex]
  · intro d rest hex hsd
    simp [MeterAssert, Run.exec, hq, hex, hsd]

/-! ## Value serialization (`schema.go`) -/

/-- C5: for every event whose data `json.Unmarshal` rejects with an error, `SerializeValue`
returns that error and no bytes, and the value serializer's `Serialize` is not invoked: the
trace of its calls is unchanged. -/
theorem C5_invalid_data_not_serialized {V : Type} (json : Json V)
    (Serialize : Serializer → String → cloudEventsKafkaPayload → Option Bytes × Option GoError)
    (s : schema) (topic : String) (ev : Event) (calls : List SerializeCall) (e : GoError)
    (hinvalid : json.Unmarshal ev.Data = .error e) :
    SerializeValue json Serialize s topic ev calls = ((none, some e), calls) := by
  simp [SerializeValue, toCloudEventsKafkaPayload, hinvalid]

/-- The example event with the data `{oops` satisfies the hypothesis of
`C5_invalid_data_not_serialized`. -/
theorem C5_invalid_data_not_serialized_witness :
    SerializeValue demoJson demoSerialize demoSchema "events"
        (demoEvent [123, 111, 111, 112, 115]) []
      = ((none, some (.new "invalid character looking for beginning of value")), []) :=
  C5_invalid_data_not_serialized demoJson demoSerialize demoSchema "events"
    (demoEvent [123, 111, 111, 112, 115]) []
    (.new "invalid character looking for beginning of value") rfl

/-- For a body that decodes, the trace of `Receive` grows by one call: the event after the time
fallback, with the effective namespace. -/
theorem ServeHTTP_received_of_decoded {κ : Type} (h : Handler κ) (body : Bytes)
    (params : IngestEventsParams) (sv : Served κ) (ev : Event)
    (hdec : h.Decode body = .ok ev) :
    (ServeHTTP h body params sv).2.received = sv.received
      ++ [(if ev.Time.IsZero then ev.SetTime h.Now.UTC else ev,
           match params.NamespaceInput with
           | some input => input
           | none => h.DefaultNamespace)] := by
  unfold ServeHTTP
  simp only [hdec]
  split <;> rfl

/-- C9: for every decoded request, `Receive` is called once, with the event after the time
fallback and with the namespace parameter of the request when one is supplied, the empty string
included, and with the default namespace constant when none is supplied; the status of the
response is 200 when that call returns no error and 500 when it returns an error. -/
theorem C9_namespace_and_status {κ : Type} (h : Handler κ) (body : Bytes)
    (params : IngestEventsParams) (sv : Served κ) (ev : Event)
    (hdec : h.Decode body = .ok ev) :
    (∀ input, params.NamespaceInput = some input →
      (ServeHTTP h body params sv).2.received = sv.received
          ++ [(if ev.Time.IsZero then ev.SetTime h.Now.UTC else ev, input)]
      ∧ ((h.Receive sv.collector
            (if ev.Time.IsZero then ev.SetTime h.Now.UTC else ev) input).1 = none →
          (ServeHTTP h body params sv).1.Status = 200)
      ∧ (∀ e, (h.Receive sv.collector
            (if ev.Time.IsZero then ev.SetTime h.Now.UTC else ev) input).1 = some e →
          (ServeHTTP h body params sv).1.Status = 500))
    ∧ (params.NamespaceInput = none →
      (ServeHTTP h body params sv).2.received = sv.received
          ++ [(if ev.Time.IsZero then ev.SetTime h.Now.UTC else ev, h.DefaultNamespace)]
      ∧ ((h.Receive sv.collector
            (if ev.Time.IsZero then ev.SetTime h.Now.UTC else ev) h.DefaultNamespace).1 = none →
          (ServeHTTP h body params sv).1.Status = 200)
      ∧ (∀ e, (h.Receive sv.collector
            (if ev.Time.IsZero then ev.SetTime h.Now.UTC else ev) h.DefaultNamespace).1 = some e →
          (ServeHTTP h body params sv).1.Status = 500)) := by
  refine ⟨?_, ?_⟩
  · intro input hin
    refine ⟨?_, ?_, ?_⟩
    · rw [ServeHTTP_received_of_decoded h body params sv ev hdec, hin]
    · intro hr
      simp [ServeHTTP, hdec, hin, hr, StatusOK]
    · intro e hr
      simp [ServeHTTP, hdec, hin, hr, StatusProblem.Respond, NewStatusProblem,
        StatusInternalServerError]
  · intro hin
    refine ⟨?_, ?_, ?_⟩
    · rw [ServeHTTP_received_of_decoded h body params sv ev hdec, hin]
    · intro hr
      simp [ServeHTTP, hdec, hin, hr, StatusOK]
    · intro e hr
      simp [ServeHTTP, hdec, hin, hr, StatusProblem.Respond, NewStatusProblem,
        StatusInternalServerError]

/-- The example handler, on a request with the empty namespace, on a request with a namespace
its collector refuses and on a request without a namespace, satisfies the hypotheses of
`C9_namespace_and_status`. -/
theorem C9_namespace_and_status_witness :
    ((ServeHTTP demoHandler [123, 125] { NamespaceInput := some "" }
          { collector := 0, received := [] }).2.received
        = [] ++ [(if (demoEvent [110, 117, 108, 108]).Time.IsZero
            then (demoEvent [110, 117, 108, 108]).SetTime demoHandler.Now.UTC
            else demoEvent [110, 117, 108, 108], "")]
      ∧ (ServeHTTP demoHandler [123, 125] { NamespaceInput := some "" }
          { collector := 0, received := [] }).1.Status = 200)
    ∧ (ServeHTTP demoHandler [123, 125] { NamespaceInput := some "broken" }
          { collector := 0, received := [] }).1.Status = 500
    ∧ ((ServeHTTP demoHandler [123, 125] { NamespaceInput := none }
          { collector := 0, received := [] }).2.received
        = [] ++ [(if (demoEvent [110, 117, 108, 108]).Time.IsZero
            then (demoEvent [110, 117, 108, 108]).SetTime demoHandler.Now.UTC
            else demoEvent [110, 117, 108, 108], demoHandler.DefaultNamespace)]
      ∧ (ServeHTTP demoHandler [123, 125] { NamespaceInput := none }
          { collector := 0, received := [] }).1.Status = 200) :=
  have hempty := (C9_namespace_and_status demoHandler [123, 125] { NamespaceInput := some "" }
    { collector := 0, received := [] } (demoEvent [110, 117, 108, 108]) rfl).1 "" rfl
  have hbroken := (C9_namespace_and_status demoHandler [123, 125]
    { NamespaceInput := some "broken" }
    { collector := 0, received := [] } (demoEvent [110, 117, 108, 108]) rfl).1 "broken" rfl
  have hnone := (C9_namespace_and_status demoHandler [123, 125] { NamespaceInput := none }
    { collector := 0, received := [] } (demoEvent [110, 117, 108, 108]) rfl).2 rfl
  ⟨⟨hempty.1, hempty.2.1 (by decide)⟩,
    hbroken.2.2 (.new "collector unavailable") (by decide),
    ⟨hnone.1, hnone.2.1 (by decide)⟩⟩

/-! ## Schema binding (`schema.go`) -/

/-- When the answer of `Register` is a function of the subject and the schema document, what
`getSerializer` returns does not depend on the state of the registry. -/
theorem getSerializer_result {ρ : Type} (registry : Registry ρ)
    (answer : String → SchemaInfo → Except GoError Int)
    (hdet : ∀ st subject info normalize,
      (registry.Register st subject info normalize).1 = answer subject info)
    (serdeType : SerdeType) (doc : String) (st : ρ) :
    (getSerializer registry serdeType doc st).1 =
      (match answer (schemaSubject serdeType) { Schema := doc, SchemaType := "JSON" } with
        | .error err => .error (.wrap "register schema" err)
        | .ok schemaID =>
          match registry.NewSerializerErr serdeType
              { registry.NewSerializerConfig with
                AutoRegisterSchemas := false, UseSchemaID := schemaID } with
          | some err => .error (.wrap "init serializer" err)
          | none => .ok { SerdeType := serdeType,
                          Conf := { registry.NewSerializerConfig with
                            AutoRegisterSchemas := false, UseSchemaID := schemaID } }) := by
  have h := hdet st (schemaSubject serdeType) { Schema := doc, SchemaType := "JSON" } true
  unfold getSerializer
  rcases hreg : registry.Register st (schemaSubject serdeType)
      { Schema := doc, SchemaType := "JSON" } true with ⟨res, st1⟩
  rw [hreg] at h
  simp only at h
  rw [← h]
  cases res with
  | error err => rfl
  | ok schemaID =>
    simp only [NewSerializer]
    cases registry.NewSerializerErr serdeType
      { AutoRegisterSchemas := false, UseSchemaID := schemaID } <;> rfl

/-- What `getSerializer` returns on success: the registry answered with an ID, and the
serializer is pinned to that ID with auto-registration disabled. -/
theorem getSerializer_ok {ρ : Type} (registry : Registry ρ)
    (answer : String → SchemaInfo → Except GoError Int)
    (hdet : ∀ st subject info normalize,
      (registry.Register st subject info normalize).1 = answer subject info)
    (serdeType : SerdeType) (doc : String) (st : ρ) (serializer : Serializer)
    (hok : (getSerializer registry serdeType doc st).1 = .ok serializer) :
    answer (schemaSubject serdeType) { Schema := doc, SchemaType := "JSON" }
      = .ok serializer.Conf.UseSchemaID
    ∧ serializer.Conf.AutoRegisterSchemas = false := by
  rw [getSerializer_result registry answer hdet serdeType doc st] at hok
  cases hans : answer (schemaSubject serdeType) { Schema := doc, SchemaType := "JSON" } with
  | error err => simp [hans] at hok
  | ok schemaID =>
    rw [hans] at hok
    simp only at hok
    cases herr : registry.NewSerializerErr serdeType
        { AutoRegisterSchemas := false, UseSchemaID := schemaID } with
    | some err => simp [herr] at hok
    | none =>
      rw [herr] at hok
      simp only [Except.ok.injEq] at hok
      subst hok
      exact ⟨rfl, rfl⟩

/-- The function `NewSchema` in terms of the results of the two calls of `getSerializer`. -/
theorem NewSchema_result {ρ : Type} (registry : Registry ρ) (st : ρ) :
    (NewSchema registry st).1 =
      (match (getSerializer registry SerdeType.KeySerde registry.eventKeySchema st).1 with
        | .error err => .error (.wrap "init event key serializer" err)
        | .ok keySerializer =>
          match (getSerializer registry SerdeType.ValueSerde registry.eventValueSchema
              (getSerializer registry SerdeType.KeySerde registry.eventKeySchema st).2).1 with
          | .error err => .error (.wrap "init event value serializer" err)
          | .ok valueSerializer =>
            .ok ({ keySerializer := keySerializer, valueSerializer := valueSerializer },
              keySerializer.Conf.UseSchemaID, valueSerializer.Conf.UseSchemaID)) := by
  unfold NewSchema
  rcases hk : getSerializer registry SerdeType.KeySerde registry.eventKeySchema st
    with ⟨rk, st1⟩
  cases rk with
  | error err => rfl
  | ok keySerializer =>
    simp only
    rcases hv : getSerializer registry SerdeType.ValueSerde registry.eventValueSchema st1
      with ⟨rv, st2⟩
    cases rv <;> rfl

/-- When the answer of `Register` is a function of the subject and the schema document, what
`NewSchema` returns does not depend on the state of the registry. -/
theorem NewSchema_state_free {ρ : Type} (registry : Registry ρ)
    (answer : String → SchemaInfo → Except GoError Int)
    (hdet : ∀ st subject info normalize,
      (registry.Register st subject info normalize).1 = answer subject info)
    (st st2 : ρ) :
    (NewSchema registry st).1 = (NewSchema registry st2).1 := by
  rw [NewSchema_result, NewSchema_result]
  simp only [getSerializer_result registry answer hdet]

/-- C10: let the answer of `Register` be a function of the subject and the schema document.
Then a call of `NewSchema` in any state of the registry, the state a first call has left
included, returns what the first call returns. If that is a schema with a key and a value schema
ID, these are the IDs the registry answers for the subjects "om-cloudevents-key" and
"om-cloudevents-value" with the two schema documents, and each serializer of the schema is pinned
to its ID (`UseSchemaID`) with auto-registration disabled. -/
theorem C10_new_schema_ids_stable {ρ : Type} (registry : Registry ρ)
    (answer : String → SchemaInfo → Except GoError Int)
    (hdet : ∀ st subject info normalize,
      (registry.Register st subject info normalize).1 = answer subject info)
    (st : ρ) :
    (NewSchema registry (NewSchema registry st).2).1 = (NewSchema registry st).1
    ∧ (∀ st2 : ρ, (NewSchema registry st2).1 = (NewSchema registry st).1)
    ∧ ∀ (s : schema) (keyID valueID : Int),
        (NewSchema registry st).1 = .ok (s, keyID, valueID) →
        answer "om-cloudevents-key"
            { Schema := registry.eventKeySchema, SchemaType := "JSON" } = .ok keyID
        ∧ answer "om-cloudevents-value"
            { Schema := registry.eventValueSchema, SchemaType := "JSON" } = .ok valueID
        ∧ s.keySerializer.Conf.UseSchemaID = keyID
        ∧ s.keySerializer.Conf.AutoRegisterSchemas = false
        ∧ s.valueSerializer.Conf.UseSchemaID = valueID
        ∧ s.valueSerializer.Conf.AutoRegisterSchemas = false := by
  refine ⟨NewSchema_state_free registry answer hdet _ st,
    fun st2 => NewSchema_state_free registry answer hdet st2 st, ?_⟩
  intro s keyID valueID hfirst
  rw [NewSchema_result] at hfirst
  cases hk : (getSerializer registry SerdeType.KeySerde registry.eventKeySchema st).1 with
  | error err => simp [hk] at hfirst
  | ok keySerializer =>
    rw [hk] at hfirst
    simp only at hfirst
    cases hv : (getSerializer registry SerdeType.ValueSerde registry.eventValueSchema
        (getSerializer registry SerdeType.KeySerde registry.eventKeySchema st).2).1 with
    | error err => simp [hv] at hfirst
    | ok valueSerializer =>
      rw [hv] at hfirst
      simp only [Except.ok.injEq, Prod.mk.injEq] at hfirst
      obtain ⟨hs, hkid, hvid⟩ := hfirst
      have hkey := getSerializer_ok registry answer hdet _ _ _ _ hk
      have hval := getSerializer_ok registry answer hdet _ _ _ _ hv
      subst hs
      subst hkid
      subst hvid
      exact ⟨hkey.1, hval.1, rfl, hkey.2, rfl, hval.2⟩

/-- The example registry satisfies the hypotheses of `C10_new_schema_ids_stable`: the first call
of `NewSchema` returns the example schema with the IDs 1 and 2, and so does the second. -/
theorem C10_new_schema_ids_stable_witness :
    (NewSchema demoRegistry 0).1 = .ok (demoSchema, 1, 2)
    ∧ (NewSchema demoRegistry (NewSchema demoRegistry 0).2).1 = (NewSchema demoRegistry 0).1
    ∧ demoRegistryAnswer "om-cloudevents-key"
        { Schema := demoRegistry.eventKeySchema, SchemaType := "JSON" } = .ok 1
    ∧ demoRegistryAnswer "om-cloudevents-value"
        { Schema := demoRegistry.eventValueSchema, SchemaType := "JSON" } = .ok 2
    ∧ demoSchema.keySerializer.Conf.UseSchemaID = 1
    ∧ demoSchema.keySerializer.Conf.AutoRegisterSchemas = false
    ∧ demoSchema.valueSerializer.Conf.UseSchemaID = 2
    ∧ demoSchema.valueSerializer.Conf.AutoRegisterSchemas = false :=
  have h := C10_new_schema_ids_stable demoRegistry demoRegistryAnswer (fun _ _ _ _ => rfl) 0
  ⟨rfl, h.1, h.2.2 demoSchema 1 2 rfl⟩

end OpenMeter
